import Mathlib

/-!
Shallow embedding of the impact-physics engine of apollo930/space-innov
(src/src/App.jsx): the pure computation inside computeImpact, and the
branch structure of fetchPopulationDensity.  JavaScript numbers are
modelled as real numbers; Math.round is Mathlib round (both round half
up), Math.pow is Real.rpow, Math.log10 is Real.logb 10, Math.min/max are
min/max.
-/

namespace SpaceInnov

open Real

/-- The user-adjustable settings object: diameter (m), speed (km/s),
impact angle (degrees), material density (kg/m^3). -/
structure Settings where
  diam : ℝ
  speed : ℝ
  angle : ℝ
  density : ℝ

noncomputable section

/-- volume = (4/3)*Math.PI*Math.pow(r,3) with r = d/2. -/
def volume (s : Settings) : ℝ := (4/3) * π * (s.diam / 2) ^ 3

/-- mass = s.density * volume. -/
def mass (s : Settings) : ℝ := s.density * volume s

/-- v = Number(s.speed)*1000 (m/s). -/
def velocity (s : Settings) : ℝ := s.speed * 1000

/-- energy = 0.5 * mass * v * v. -/
def energy (s : Settings) : ℝ := 0.5 * mass s * velocity s * velocity s

/-- megatons = energy / 4.184e15. -/
def megatons (s : Settings) : ℝ := energy s / 4.184e15

/-- impactAngleRad = (s.angle * Math.PI) / 180. -/
def impactAngleRad (s : Settings) : ℝ := s.angle * π / 180

/-- baseCraterDiameter = 0.02 * Math.pow(energy, 1/3.4). -/
def baseCraterDiameter (s : Settings) : ℝ := 0.02 * energy s ^ ((1 : ℝ) / 3.4)

/-- angleScaling = Math.pow(Math.sin(impactAngleRad), 0.67). -/
def angleScaling (s : Settings) : ℝ := Real.sin (impactAngleRad s) ^ (0.67 : ℝ)

/-- craterDiameter = baseCraterDiameter * (0.3 + 0.7 * angleScaling). -/
def craterDiameter (s : Settings) : ℝ := baseCraterDiameter s * (0.3 + 0.7 * angleScaling s)

/-- blastRadius = craterDiameter * 2.5. -/
def blastRadius (s : Settings) : ℝ := craterDiameter s * 2.5

/-- willAirburst = (d < 200 && s.speed > 11 && s.angle > 15). -/
def willAirburst (s : Settings) : Prop := s.diam < 200 ∧ s.speed > 11 ∧ s.angle > 15

/-- craterArea = Math.PI * Math.pow(craterDiameter/2000, 2), in km^2. -/
def craterArea (s : Settings) : ℝ := π * (craterDiameter s / 2000) ^ 2

/-- craterVaporized = Math.round(craterArea * popDensity). -/
def craterVaporized (s : Settings) (pd : ℝ) : ℤ := round (craterArea s * pd)

/-- fireballRadius = Math.pow(energy/4.184e12, 0.4) * 1000, in meters. -/
def fireballRadius (s : Settings) : ℝ := (energy s / 4.184e12) ^ (0.4 : ℝ) * 1000

/-- fireballArea = Math.PI * Math.pow(fireballRadius/1000, 2), in km^2. -/
def fireballArea (s : Settings) : ℝ := π * (fireballRadius s / 1000) ^ 2

/-- fireballDeaths = Math.round(fireballArea * popDensity * 0.9). -/
def fireballDeaths (s : Settings) (pd : ℝ) : ℤ := round (fireballArea s * pd * 0.9)

/-- shockWaveDecibels = Math.min(300, 180 + 20 * Math.log10(megatons)). -/
def shockWaveDecibels (s : Settings) : ℝ := min 300 (180 + 20 * Real.logb 10 (megatons s))

/-- shockWaveRadius = Math.pow(energy/4.184e12, 0.33) * 2000, in meters. -/
def shockWaveRadius (s : Settings) : ℝ := (energy s / 4.184e12) ^ (0.33 : ℝ) * 2000

/-- shockWaveArea = Math.PI * Math.pow(shockWaveRadius/1000, 2), in km^2. -/
def shockWaveArea (s : Settings) : ℝ := π * (shockWaveRadius s / 1000) ^ 2

/-- shockWaveDeaths = Math.round(shockWaveArea * popDensity * 0.3). -/
def shockWaveDeaths (s : Settings) (pd : ℝ) : ℤ := round (shockWaveArea s * pd * 0.3)

/-- windRadius = Math.pow(energy/4.184e12, 0.3) * 1500, in meters. -/
def windRadius (s : Settings) : ℝ := (energy s / 4.184e12) ^ (0.3 : ℝ) * 1500

/-- windArea = Math.PI * Math.pow(windRadius/1000, 2), in km^2. -/
def windArea (s : Settings) : ℝ := π * (windRadius s / 1000) ^ 2

/-- windDeaths = Math.round(windArea * popDensity * 0.4). -/
def windDeaths (s : Settings) (pd : ℝ) : ℤ := round (windArea s * pd * 0.4)

/-- earthquakeMagnitude = Math.min(10, 4 + Math.log10(megatons)). -/
def earthquakeMagnitude (s : Settings) : ℝ := min 10 (4 + Real.logb 10 (megatons s))

/-- earthquakeRadius = Math.pow(10, earthquakeMagnitude) * 10, meters felt. -/
def earthquakeRadius (s : Settings) : ℝ := (10 : ℝ) ^ earthquakeMagnitude s * 10

/-- earthquakeArea = Math.PI * Math.pow(earthquakeRadius/1000, 2), in km^2. -/
def earthquakeArea (s : Settings) : ℝ := π * (earthquakeRadius s / 1000) ^ 2

/-- earthquakeDeaths = Math.round(earthquakeArea * popDensity * 0.001). -/
def earthquakeDeaths (s : Settings) (pd : ℝ) : ℤ := round (earthquakeArea s * pd * 0.001)

/-- isOceanImpact = popDensity === 0. -/
def isOceanImpact (pd : ℝ) : Prop := pd = 0

/-- The guard of the tsunami branch: isOceanImpact && megatons > 1. -/
def tsunamiCond (s : Settings) (pd : ℝ) : Prop := pd = 0 ∧ megatons s > 1

/-- Wave height formula inside the tsunami branch:
Math.pow(energy / 4.184e15, 0.25) * 10. -/
def tsunamiHeightRaw (s : Settings) : ℝ := (energy s / 4.184e15) ^ (0.25 : ℝ) * 10

/-- Propagation radius formula inside the tsunami branch:
Math.sqrt(energy / 4.184e12) * 500. -/
def tsunamiRadiusRaw (s : Settings) : ℝ := Real.sqrt (energy s / 4.184e12) * 500

open Classical in
/-- tsunamiHeight: 0 unless the ocean-impact branch runs. -/
def tsunamiHeight (s : Settings) (pd : ℝ) : ℝ :=
  if tsunamiCond s pd then tsunamiHeightRaw s else 0

open Classical in
/-- tsunamiRadius: 0 unless the ocean-impact branch runs. -/
def tsunamiRadius (s : Settings) (pd : ℝ) : ℝ :=
  if tsunamiCond s pd then tsunamiRadiusRaw s else 0

/-- tsunamiArea = (affectedCoastLength * coastalPenetration) / 1000000 with
affectedCoastLength = tsunamiRadius * π * 2 and
coastalPenetration = Math.min(tsunamiHeight * 100, 10000). -/
def tsunamiAreaRaw (s : Settings) : ℝ :=
  (tsunamiRadiusRaw s * π * 2) * min (tsunamiHeightRaw s * 100) 10000 / 1000000

open Classical in
/-- tsunamiDeaths = Math.round(tsunamiArea * 150 * 0.1) in the branch, else 0. -/
def tsunamiDeaths (s : Settings) (pd : ℝ) : ℤ :=
  if tsunamiCond s pd then round (tsunamiAreaRaw s * 150 * 0.1) else 0

open Classical in
/-- tsunamiAffectedCoasts = Math.round(tsunamiRadius / 1000) in the branch, else 0. -/
def tsunamiAffectedCoasts (s : Settings) (pd : ℝ) : ℤ :=
  if tsunamiCond s pd then round (tsunamiRadiusRaw s / 1000) else 0

/-- AU = 149597870700 meters. -/
def AU : ℝ := 149597870700

/-- phaThreshold = 0.05 * AU. -/
def phaThreshold : ℝ := 0.05 * AU

/-- detectionDistance = Math.max(1 * AU, phaThreshold * 20). -/
def detectionDistance : ℝ := max (1 * AU) (phaThreshold * 20)

/-- baseDeflectionAngle = phaThreshold / detectionDistance. -/
def baseDeflectionAngle : ℝ := phaThreshold / detectionDistance

/-- angleEfficiency = Math.sin(impactAngleRad); this is also the value the
result reports as deflectionAngleEfficiency (stored as a percentage). -/
def angleEfficiency (s : Settings) : ℝ := Real.sin (impactAngleRad s)

/-- effectiveDeflectionAngle = baseDeflectionAngle / Math.max(angleEfficiency, 0.1). -/
def effectiveDeflectionAngle (s : Settings) : ℝ :=
  baseDeflectionAngle / max (angleEfficiency s) 0.1

/-- deltaV = currentVelocity * effectiveDeflectionAngle, m/s. -/
def deltaV (s : Settings) : ℝ := velocity s * effectiveDeflectionAngle s

/-- Modelled from the spec (refinement target for the delta-v claim): the
simplified closed form impactVelocity_mps * 0.05 / max(sin(angleRad), 0.1). -/
def deltaVSimple (s : Settings) : ℝ :=
  velocity s * 0.05 / max (Real.sin (impactAngleRad s)) 0.1

/-- A value position of the WorldPop identify JSON payload: a numeric
density, the noData marker string, or null/undefined/absent. -/
inductive ApiValue where
  | num (x : ℝ)
  | noDataStr
  | absent

/-- The parsed response body: data.value and the data.results array. -/
structure ApiResponse where
  value : ApiValue
  results : List ApiValue

/-- Outcome of the fetch: a parsed JSON body, or any transport failure
(HTTP error, malformed body, network error, abort/timeout), which all
land in the catch block. -/
inductive FetchOutcome where
  | ok (r : ApiResponse)
  | failure

/-- The value fetchPopulationDensity resolves with, as a function of the
fetch outcome, following the branch structure of the source: noData
markers map to 0, numbers to Math.max(0, Math.round(density)), a null
value falls through to results[0], everything else (including every
caught error) to the global-average constant 57. -/
def fetchPopulationDensity : FetchOutcome → ℝ
  | .failure => 57
  | .ok r =>
    match r.value with
    | .noDataStr => 0
    | .num x => ((max 0 (round x) : ℤ) : ℝ)
    | .absent =>
      match r.results with
      | [] => 57
      | v :: _ =>
        match v with
        | .noDataStr => 0
        | .num x => ((max 0 (round x) : ℤ) : ℝ)
        | .absent => 57

end

/-- The example settings of the spec scenario: diameter 500 m, speed 17
km/s, angle 45 degrees, density 3500 kg/m^3. -/
def exampleSettings : Settings := ⟨500, 17, 45, 3500⟩

/-! Helper lemmas about the angle pipeline. -/

lemma impactAngleRad_pos (s : Settings) (h : 0 < s.angle) : 0 < impactAngleRad s := by
  unfold impactAngleRad
  exact div_pos (mul_pos h Real.pi_pos) (by norm_num)

lemma impactAngleRad_le_half_pi (s : Settings) (h : s.angle ≤ 90) :
    impactAngleRad s ≤ π / 2 := by
  unfold impactAngleRad
  nlinarith [Real.pi_pos]

lemma sin_impactAngleRad_pos (s : Settings) (h0 : 0 < s.angle) (h90 : s.angle ≤ 90) :
    0 < Real.sin (impactAngleRad s) :=
  Real.sin_pos_of_pos_of_lt_pi (impactAngleRad_pos s h0)
    (lt_of_le_of_lt (impactAngleRad_le_half_pi s h90)
      (by nlinarith [Real.pi_pos]))

lemma angleScaling_pos (s : Settings) (h0 : 0 < s.angle) (h90 : s.angle ≤ 90) :
    0 < angleScaling s :=
  Real.rpow_pos_of_pos (sin_impactAngleRad_pos s h0 h90) _

lemma angleScaling_le_one (s : Settings) (h0 : 0 < s.angle) (h90 : s.angle ≤ 90) :
    angleScaling s ≤ 1 :=
  Real.rpow_le_one (sin_impactAngleRad_pos s h0 h90).le (Real.sin_le_one _) (by norm_num)

lemma energy_exampleSettings_pos : 0 < energy exampleSettings := by
  simp only [energy, mass, volume, velocity, exampleSettings]
  positivity

/-- C6: willAirburst holds exactly when diameter < 200 and speed > 11 and
angle > 15; in particular the 50 m / 20 km/s / 30 degree scenario airbursts. -/
theorem c6_airburst_classification :
    (∀ s : Settings, willAirburst s ↔ (s.diam < 200 ∧ s.speed > 11 ∧ s.angle > 15)) ∧
    willAirburst ⟨50, 20, 30, 3000⟩ := by
  refine ⟨fun s => Iff.rfl, ?_⟩
  refine ⟨by norm_num, by norm_num, by norm_num⟩

/-- C9: for positive energy the earthquake magnitude is capped at 10 and the
shock wave level at 300 dB by the Math.min in each formula. -/
theorem c9_magnitude_decibel_caps (s : Settings) (h : 0 < energy s) :
    earthquakeMagnitude s ≤ 10 ∧ shockWaveDecibels s ≤ 300 :=
  ⟨min_le_left _ _, min_le_left _ _⟩

/-- C9 witness at the example settings. -/
theorem c9_magnitude_decibel_caps_witness :
    0 < energy exampleSettings ∧
    (earthquakeMagnitude exampleSettings ≤ 10 ∧ shockWaveDecibels exampleSettings ≤ 300) :=
  ⟨energy_exampleSettings_pos,
    c9_magnitude_decibel_caps exampleSettings energy_exampleSettings_pos⟩

/-- C10: the detection distance max(1 AU, 20 * 0.05 AU) is exactly 1 AU, and
the full delta-v pipeline coincides with the simplified closed form
velocity * 0.05 / max(sin(angleRad), 0.1) on every input. -/
theorem c10_deltaV_closed_form :
    detectionDistance = AU ∧ ∀ s : Settings, deltaV s = deltaVSimple s := by
  have hdd : detectionDistance = AU := by
    unfold detectionDistance phaThreshold AU
    norm_num
  refine ⟨hdd, fun s => ?_⟩
  have hm : (0 : ℝ) < max (Real.sin (impactAngleRad s)) 0.1 :=
    lt_of_lt_of_le (by norm_num) (le_max_right _ _)
  unfold deltaV deltaVSimple effectiveDeflectionAngle baseDeflectionAngle angleEfficiency
  rw [hdd]
  unfold phaThreshold AU
  field_simp

/-- C8: the population resolver returns 57 on every transport failure, 0 when
the service reports the noData marker, and a non-negative rounded integer when
the service reports a concrete density value. -/
theorem c8_population_resolver :
    fetchPopulationDensity .failure = 57 ∧
    (∀ res, fetchPopulationDensity (.ok ⟨.noDataStr, res⟩) = 0) ∧
    (∀ x res, fetchPopulationDensity (.ok ⟨.num x, res⟩) = ((max 0 (round x) : ℤ) : ℝ) ∧
      0 ≤ fetchPopulationDensity (.ok ⟨.num x, res⟩) ∧
      ∃ n : ℤ, fetchPopulationDensity (.ok ⟨.num x, res⟩) = (n : ℝ)) := by
  refine ⟨rfl, fun res => rfl, fun x res => ⟨rfl, ?_, ⟨max 0 (round x), rfl⟩⟩⟩
  have h : (0 : ℤ) ≤ max 0 (round x) := le_max_left _ _
  show (0 : ℝ) ≤ ((max 0 (round x) : ℤ) : ℝ)
  exact_mod_cast h

/-- C3: whenever the population density is nonzero or the yield is at most
one megaton, the tsunami branch is skipped and all four tsunami fields are
zero. -/
theorem c3_tsunami_gating (s : Settings) (pd : ℝ)
    (h : pd ≠ 0 ∨ megatons s ≤ 1) :
    tsunamiHeight s pd = 0 ∧ tsunamiRadius s pd = 0 ∧
    tsunamiDeaths s pd = 0 ∧ tsunamiAffectedCoasts s pd = 0 := by
  have hc : ¬ tsunamiCond s pd := by
    unfold tsunamiCond
    rcases h with h | h
    · rintro ⟨h0, -⟩
      exact h h0
    · rintro ⟨-, h1⟩
      exact absurd h1 (not_lt.mpr h)
  unfold tsunamiHeight tsunamiRadius tsunamiDeaths tsunamiAffectedCoasts
  rw [if_neg hc, if_neg hc, if_neg hc, if_neg hc]
  exact ⟨rfl, rfl, rfl, rfl⟩

/-- C3 witness: at the example settings with density 57 all tsunami fields
are zero. -/
theorem c3_tsunami_gating_witness :
    ((57 : ℝ) ≠ 0 ∨ megatons exampleSettings ≤ 1) ∧
    (tsunamiHeight exampleSettings 57 = 0 ∧ tsunamiRadius exampleSettings 57 = 0 ∧
     tsunamiDeaths exampleSettings 57 = 0 ∧ tsunamiAffectedCoasts exampleSettings 57 = 0) :=
  ⟨Or.inl (by norm_num),
    c3_tsunami_gating exampleSettings 57 (Or.inl (by norm_num))⟩

/-- C1 counterexample: at impact angle 1 degree (inside the claimed (0, 90]
domain) the reported deflection efficiency sin(1 * pi/180) is below the
claimed lower bound 0.1. -/
theorem c1_efficiency_counterexample :
    (0 < (Settings.mk 500 17 1 3500).angle ∧ (Settings.mk 500 17 1 3500).angle ≤ 90) ∧
    angleEfficiency ⟨500, 17, 1, 3500⟩ < 0.1 := by
  refine ⟨⟨by norm_num, by norm_num⟩, ?_⟩
  have h1 : angleEfficiency ⟨500, 17, 1, 3500⟩ = Real.sin (π / 180) := by
    unfold angleEfficiency impactAngleRad
    norm_num
  rw [h1]
  have h2 : Real.sin (π / 180) < π / 180 := Real.sin_lt (by positivity)
  have h3 : π / 180 < 0.1 := by nlinarith [Real.pi_lt_d6]
  linarith

/-- C1 amended: for angle in (0, 90] the reported deflection efficiency
sin(angleRad) lies in (0, 1]; the 0.1 floor of the claim applies only inside
the delta-v denominator, not to the reported efficiency. -/
theorem c1_efficiency_in_unit_interval (s : Settings)
    (h0 : 0 < s.angle) (h90 : s.angle ≤ 90) :
    0 < angleEfficiency s ∧ angleEfficiency s ≤ 1 :=
  ⟨sin_impactAngleRad_pos s h0 h90, Real.sin_le_one _⟩

/-- C1 witness at the example settings (angle 45). -/
theorem c1_efficiency_witness :
    (0 < exampleSettings.angle ∧ exampleSettings.angle ≤ 90) ∧
    (0 < angleEfficiency exampleSettings ∧ angleEfficiency exampleSettings ≤ 1) :=
  ⟨⟨by norm_num [exampleSettings], by norm_num [exampleSettings]⟩,
    c1_efficiency_in_unit_interval exampleSettings (by norm_num [exampleSettings])
      (by norm_num [exampleSettings])⟩

lemma baseCraterDiameter_pos (s : Settings) (hE : 0 < energy s) :
    0 < baseCraterDiameter s := by
  unfold baseCraterDiameter
  exact mul_pos (by norm_num) (Real.rpow_pos_of_pos hE _)

/-- C4: for positive energy and angle in (0, 90], the angle-scaled crater
diameter is strictly above 0.3 times the vertical baseline and at most the
baseline, with equality exactly at angle 90. -/
theorem c4_crater_angle_scaling (s : Settings) (hE : 0 < energy s)
    (h0 : 0 < s.angle) (h90 : s.angle ≤ 90) :
    0.3 * baseCraterDiameter s < craterDiameter s ∧
    craterDiameter s ≤ baseCraterDiameter s ∧
    (craterDiameter s = baseCraterDiameter s ↔ s.angle = 90) := by
  have hbase := baseCraterDiameter_pos s hE
  have hsc0 := angleScaling_pos s h0 h90
  have hsc1 := angleScaling_le_one s h0 h90
  refine ⟨?_, ?_, ?_, ?_⟩
  · unfold craterDiameter
    nlinarith
  · unfold craterDiameter
    nlinarith
  · intro heq
    by_contra hne
    have hlt : s.angle < 90 := lt_of_le_of_ne h90 hne
    have hradlt : impactAngleRad s < π / 2 := by
      unfold impactAngleRad
      nlinarith [Real.pi_pos]
    have hmem₁ : impactAngleRad s ∈ Set.Icc (-(π / 2)) (π / 2) :=
      Set.mem_Icc.mpr ⟨by nlinarith [Real.pi_pos, impactAngleRad_pos s h0], hradlt.le⟩
    have hmem₂ : π / 2 ∈ Set.Icc (-(π / 2)) (π / 2) :=
      Set.mem_Icc.mpr ⟨by nlinarith [Real.pi_pos], le_refl _⟩
    have hsin_lt : Real.sin (impactAngleRad s) < 1 := by
      have h := Real.strictMonoOn_sin hmem₁ hmem₂ hradlt
      rwa [Real.sin_pi_div_two] at h
    have hsc_lt : angleScaling s < 1 :=
      Real.rpow_lt_one (sin_impactAngleRad_pos s h0 h90).le hsin_lt (by norm_num)
    unfold craterDiameter at heq
    nlinarith
  · intro h90eq
    have hsc : angleScaling s = 1 := by
      unfold angleScaling impactAngleRad
      rw [h90eq]
      have hrad : (90 : ℝ) * π / 180 = π / 2 := by ring
      rw [hrad, Real.sin_pi_div_two, Real.one_rpow]
    unfold craterDiameter
    rw [hsc]
    ring

/-- C4 witness at the example settings (angle 45). -/
theorem c4_crater_angle_scaling_witness :
    (0 < energy exampleSettings ∧ 0 < exampleSettings.angle ∧ exampleSettings.angle ≤ 90) ∧
    (0.3 * baseCraterDiameter exampleSettings < craterDiameter exampleSettings ∧
     craterDiameter exampleSettings ≤ baseCraterDiameter exampleSettings ∧
     (craterDiameter exampleSettings = baseCraterDiameter exampleSettings ↔
       exampleSettings.angle = 90)) :=
  ⟨⟨energy_exampleSettings_pos, by norm_num [exampleSettings], by norm_num [exampleSettings]⟩,
    c4_crater_angle_scaling exampleSettings energy_exampleSettings_pos
      (by norm_num [exampleSettings]) (by norm_num [exampleSettings])⟩

/-! Helper lemmas for the monotonicity claim. -/

lemma volume_pos (s : Settings) (hd : 0 < s.diam) : 0 < volume s := by
  unfold volume
  have h3 : 0 < (s.diam / 2) ^ 3 := pow_pos (by linarith) 3
  have h := Real.pi_pos
  nlinarith

lemma energy_pos (s : Settings) (hd : 0 < s.diam) (hv : 0 < s.speed)
    (hρ : 0 < s.density) : 0 < energy s := by
  have hmass : 0 < mass s := mul_pos hρ (volume_pos s hd)
  have hvel : 0 < velocity s := by
    unfold velocity
    nlinarith
  unfold energy
  have h1 : 0 < 0.5 * mass s := by nlinarith
  exact mul_pos (mul_pos h1 hvel) hvel

lemma energy_lt_of_diam_lt (d₁ d₂ v a ρ : ℝ) (hd₁ : 0 < d₁) (hd : d₁ < d₂)
    (hv : 0 < v) (hρ : 0 < ρ) :
    energy ⟨d₁, v, a, ρ⟩ < energy ⟨d₂, v, a, ρ⟩ := by
  unfold energy mass volume velocity
  have hc : (d₁ / 2) ^ 3 < (d₂ / 2) ^ 3 :=
    pow_lt_pow_left₀ (by linarith) (by linarith) (by norm_num)
  have hv2 : (0 : ℝ) < v * 1000 * (v * 1000) := by nlinarith
  have hρ2 : (0 : ℝ) < 0.5 * ρ := by linarith
  have hπ2 : (0 : ℝ) < (4 : ℝ) / 3 * π := by linarith [Real.pi_pos]
  have hK : (0 : ℝ) < 0.5 * ρ * ((4 : ℝ) / 3 * π) * (v * 1000 * (v * 1000)) :=
    mul_pos (mul_pos hρ2 hπ2) hv2
  nlinarith [mul_lt_mul_of_pos_left hc hK]

lemma energy_lt_of_speed_lt (d v₁ v₂ a ρ : ℝ) (hd : 0 < d) (hv₁ : 0 < v₁)
    (hv : v₁ < v₂) (hρ : 0 < ρ) :
    energy ⟨d, v₁, a, ρ⟩ < energy ⟨d, v₂, a, ρ⟩ := by
  unfold energy mass velocity
  have hvol : 0 < volume ⟨d, v₁, a, ρ⟩ := volume_pos _ hd
  have hsq : v₁ * v₁ < v₂ * v₂ := by nlinarith
  have hM : 0 < ρ * volume ⟨d, v₁, a, ρ⟩ := mul_pos hρ hvol
  have hvol_eq : volume ⟨d, v₂, a, ρ⟩ = volume ⟨d, v₁, a, ρ⟩ := rfl
  rw [hvol_eq]
  nlinarith [mul_lt_mul_of_pos_left hsq hM]

lemma derived_lt_of_energy_lt (s₁ s₂ : Settings) (hangle : s₁.angle = s₂.angle)
    (h0 : 0 < s₁.angle) (h90 : s₁.angle ≤ 90)
    (hE₁ : 0 < energy s₁) (hE : energy s₁ < energy s₂) :
    megatons s₁ < megatons s₂ ∧ craterDiameter s₁ < craterDiameter s₂ ∧
    blastRadius s₁ < blastRadius s₂ := by
  have hmega : megatons s₁ < megatons s₂ := by
    unfold megatons
    linarith
  have hsc_eq : angleScaling s₂ = angleScaling s₁ := by
    unfold angleScaling impactAngleRad
    rw [hangle]
  have hf : 0 < 0.3 + 0.7 * angleScaling s₁ := by
    have := angleScaling_pos s₁ h0 h90
    linarith
  have hr : energy s₁ ^ ((1 : ℝ) / 3.4) < energy s₂ ^ ((1 : ℝ) / 3.4) :=
    Real.rpow_lt_rpow hE₁.le hE (by norm_num)
  have hcrater : craterDiameter s₁ < craterDiameter s₂ := by
    unfold craterDiameter baseCraterDiameter
    rw [hsc_eq]
    nlinarith [mul_lt_mul_of_pos_right hr hf]
  refine ⟨hmega, hcrater, ?_⟩
  unfold blastRadius
  linarith

/-- C7: with angle, density and the other kinetic parameter fixed, strictly
increasing the diameter or the speed strictly increases energy, megatons,
crater diameter and blast radius. -/
theorem c7_monotonicity (a ρ : ℝ) (h0 : 0 < a) (h90 : a ≤ 90) (hρ : 0 < ρ)
    (d₁ d₂ v₁ v₂ : ℝ) (hd₁ : 0 < d₁) (hd : d₁ < d₂) (hv₁ : 0 < v₁) (hv : v₁ < v₂) :
    (energy ⟨d₁, v₁, a, ρ⟩ < energy ⟨d₂, v₁, a, ρ⟩ ∧
     megatons ⟨d₁, v₁, a, ρ⟩ < megatons ⟨d₂, v₁, a, ρ⟩ ∧
     craterDiameter ⟨d₁, v₁, a, ρ⟩ < craterDiameter ⟨d₂, v₁, a, ρ⟩ ∧
     blastRadius ⟨d₁, v₁, a, ρ⟩ < blastRadius ⟨d₂, v₁, a, ρ⟩) ∧
    (energy ⟨d₁, v₁, a, ρ⟩ < energy ⟨d₁, v₂, a, ρ⟩ ∧
     megatons ⟨d₁, v₁, a, ρ⟩ < megatons ⟨d₁, v₂, a, ρ⟩ ∧
     craterDiameter ⟨d₁, v₁, a, ρ⟩ < craterDiameter ⟨d₁, v₂, a, ρ⟩ ∧
     blastRadius ⟨d₁, v₁, a, ρ⟩ < blastRadius ⟨d₁, v₂, a, ρ⟩) := by
  have hE₁ : 0 < energy ⟨d₁, v₁, a, ρ⟩ := energy_pos _ hd₁ hv₁ hρ
  have hEd : energy ⟨d₁, v₁, a, ρ⟩ < energy ⟨d₂, v₁, a, ρ⟩ :=
    energy_lt_of_diam_lt d₁ d₂ v₁ a ρ hd₁ hd hv₁ hρ
  have hEv : energy ⟨d₁, v₁, a, ρ⟩ < energy ⟨d₁, v₂, a, ρ⟩ :=
    energy_lt_of_speed_lt d₁ v₁ v₂ a ρ hd₁ hv₁ hv hρ
  have hDd := derived_lt_of_energy_lt ⟨d₁, v₁, a, ρ⟩ ⟨d₂, v₁, a, ρ⟩ rfl h0 h90 hE₁ hEd
  have hDv := derived_lt_of_energy_lt ⟨d₁, v₁, a, ρ⟩ ⟨d₁, v₂, a, ρ⟩ rfl h0 h90 hE₁ hEv
  exact ⟨⟨hEd, hDd.1, hDd.2.1, hDd.2.2⟩, ⟨hEv, hDv.1, hDv.2.1, hDv.2.2⟩⟩

/-- C7 witness: concrete increases 500→600 m and 17→18 km/s at angle 45,
density 3500. -/
theorem c7_monotonicity_witness :
    ((0 : ℝ) < 45 ∧ (45 : ℝ) ≤ 90 ∧ (0 : ℝ) < 3500 ∧ (0 : ℝ) < 500 ∧
     (500 : ℝ) < 600 ∧ (0 : ℝ) < 17 ∧ (17 : ℝ) < 18) ∧
    ((energy ⟨500, 17, 45, 3500⟩ < energy ⟨600, 17, 45, 3500⟩ ∧
      megatons ⟨500, 17, 45, 3500⟩ < megatons ⟨600, 17, 45, 3500⟩ ∧
      craterDiameter ⟨500, 17, 45, 3500⟩ < craterDiameter ⟨600, 17, 45, 3500⟩ ∧
      blastRadius ⟨500, 17, 45, 3500⟩ < blastRadius ⟨600, 17, 45, 3500⟩) ∧
     (energy ⟨500, 17, 45, 3500⟩ < energy ⟨500, 18, 45, 3500⟩ ∧
      megatons ⟨500, 17, 45, 3500⟩ < megatons ⟨500, 18, 45, 3500⟩ ∧
      craterDiameter ⟨500, 17, 45, 3500⟩ < craterDiameter ⟨500, 18, 45, 3500⟩ ∧
      blastRadius ⟨500, 17, 45, 3500⟩ < blastRadius ⟨500, 18, 45, 3500⟩)) :=
  ⟨⟨by norm_num, by norm_num, by norm_num, by norm_num, by norm_num, by norm_num, by norm_num⟩,
    c7_monotonicity 45 3500 (by norm_num) (by norm_num) (by norm_num)
      500 600 17 18 (by norm_num) (by norm_num) (by norm_num) (by norm_num)⟩

/-! Helper lemmas for the casualty bounds. -/

lemma round_rate_le (A pd c : ℝ) (hA : 0 ≤ A) (hpd : 0 ≤ pd) (hc : c ≤ 1) :
    ((round (A * pd * c) : ℤ) : ℝ) ≤ A * pd + 1 / 2 := by
  have h1 : ((round (A * pd * c) : ℤ) : ℝ) ≤ A * pd * c + 1 / 2 := round_le_add_half _
  have h2 : A * pd * c ≤ A * pd := by
    nlinarith [mul_nonneg (mul_nonneg hA hpd) (sub_nonneg.mpr hc)]
  linarith

lemma craterArea_nonneg (s : Settings) : 0 ≤ craterArea s := by
  unfold craterArea
  positivity

lemma fireballArea_nonneg (s : Settings) : 0 ≤ fireballArea s := by
  unfold fireballArea
  positivity

lemma shockWaveArea_nonneg (s : Settings) : 0 ≤ shockWaveArea s := by
  unfold shockWaveArea
  positivity

lemma windArea_nonneg (s : Settings) : 0 ≤ windArea s := by
  unfold windArea
  positivity

lemma earthquakeArea_nonneg (s : Settings) : 0 ≤ earthquakeArea s := by
  unfold earthquakeArea
  positivity

/-- C5 amended: each per-effect deaths estimate is at most the zone's
exposed population plus the half unit that Math.round may add; the
pre-rounding product never exceeds area times density because every
fatality rate is at most 1. -/
theorem c5_deaths_bounded_by_population (s : Settings) (pd : ℝ) (hpd : 0 ≤ pd) :
    (craterVaporized s pd : ℝ) ≤ craterArea s * pd + 1 / 2 ∧
    (fireballDeaths s pd : ℝ) ≤ fireballArea s * pd + 1 / 2 ∧
    (shockWaveDeaths s pd : ℝ) ≤ shockWaveArea s * pd + 1 / 2 ∧
    (windDeaths s pd : ℝ) ≤ windArea s * pd + 1 / 2 ∧
    (earthquakeDeaths s pd : ℝ) ≤ earthquakeArea s * pd + 1 / 2 := by
  refine ⟨?_, ?_, ?_, ?_, ?_⟩
  · exact round_le_add_half _
  · exact round_rate_le _ _ _ (fireballArea_nonneg s) hpd (by norm_num)
  · exact round_rate_le _ _ _ (shockWaveArea_nonneg s) hpd (by norm_num)
  · exact round_rate_le _ _ _ (windArea_nonneg s) hpd (by norm_num)
  · exact round_rate_le _ _ _ (earthquakeArea_nonneg s) hpd (by norm_num)

/-- C5 witness at the example settings with density 57. -/
theorem c5_deaths_bounded_by_population_witness :
    (0 : ℝ) ≤ 57 ∧
    ((craterVaporized exampleSettings 57 : ℝ) ≤ craterArea exampleSettings * 57 + 1 / 2 ∧
     (fireballDeaths exampleSettings 57 : ℝ) ≤ fireballArea exampleSettings * 57 + 1 / 2 ∧
     (shockWaveDeaths exampleSettings 57 : ℝ) ≤ shockWaveArea exampleSettings * 57 + 1 / 2 ∧
     (windDeaths exampleSettings 57 : ℝ) ≤ windArea exampleSettings * 57 + 1 / 2 ∧
     (earthquakeDeaths exampleSettings 57 : ℝ) ≤ earthquakeArea exampleSettings * 57 + 1 / 2) :=
  ⟨by norm_num, c5_deaths_bounded_by_population exampleSettings 57 (by norm_num)⟩

/-- C5 counterexample: with a 1350 m, 1 km/s, 90 degree, 12 kg/m^3 impactor
over density 1, the crater area is about 0.697 km^2, so the exposed
population is below 1, yet Math.round lifts craterVaporized to 1. -/
theorem c5_deaths_bound_counterexample :
    ¬ ((craterVaporized ⟨1350, 1, 90, 12⟩ 1 : ℝ) ≤ craterArea ⟨1350, 1, 90, 12⟩ * 1) := by
  have hE_eq : energy ⟨1350, 1, 90, 12⟩ = 2460375000000000 * π := by
    unfold energy mass volume velocity
    norm_num
    ring
  have hE_pos : 0 < energy ⟨1350, 1, 90, 12⟩ := by
    rw [hE_eq]
    positivity
  have hE_lo : (7.729e15 : ℝ) ≤ energy ⟨1350, 1, 90, 12⟩ := by
    rw [hE_eq]
    nlinarith [Real.pi_gt_d6]
  have hE_hi : energy ⟨1350, 1, 90, 12⟩ ≤ (7.7295e15 : ℝ) := by
    rw [hE_eq]
    nlinarith [Real.pi_lt_d6]
  have hX17 : (energy ⟨1350, 1, 90, 12⟩ ^ ((10 : ℝ) / 17)) ^ (17 : ℕ) =
      energy ⟨1350, 1, 90, 12⟩ ^ (10 : ℕ) := by
    rw [← Real.rpow_natCast (energy ⟨1350, 1, 90, 12⟩ ^ ((10 : ℝ) / 17)) 17,
      ← Real.rpow_mul hE_pos.le,
      show ((10 : ℝ) / 17) * (17 : ℕ) = ((10 : ℕ) : ℝ) by norm_num,
      Real.rpow_natCast]
  have hX_lo : (2.2e9 : ℝ) ≤ energy ⟨1350, 1, 90, 12⟩ ^ ((10 : ℝ) / 17) := by
    apply le_of_pow_le_pow_left₀ (n := 17) (by norm_num)
      (Real.rpow_nonneg hE_pos.le _)
    rw [hX17]
    calc ((2.2e9 : ℝ)) ^ (17 : ℕ) ≤ (7.729e15 : ℝ) ^ (10 : ℕ) := by norm_num
      _ ≤ energy ⟨1350, 1, 90, 12⟩ ^ (10 : ℕ) := pow_le_pow_left₀ (by norm_num) hE_lo 10
  have hX_hi : energy ⟨1350, 1, 90, 12⟩ ^ ((10 : ℝ) / 17) ≤ (2.24e9 : ℝ) := by
    apply le_of_pow_le_pow_left₀ (n := 17) (by norm_num) (by norm_num)
    rw [hX17]
    calc energy ⟨1350, 1, 90, 12⟩ ^ (10 : ℕ) ≤ (7.7295e15 : ℝ) ^ (10 : ℕ) :=
          pow_le_pow_left₀ hE_pos.le hE_hi 10
      _ ≤ ((2.24e9 : ℝ)) ^ (17 : ℕ) := by norm_num
  have hsc : angleScaling ⟨1350, 1, 90, 12⟩ = 1 := by
    unfold angleScaling impactAngleRad
    show Real.sin ((90 : ℝ) * π / 180) ^ (0.67 : ℝ) = 1
    have hrad : (90 : ℝ) * π / 180 = π / 2 := by ring
    rw [hrad, Real.sin_pi_div_two, Real.one_rpow]
  have hcd : craterDiameter ⟨1350, 1, 90, 12⟩ =
      0.02 * energy ⟨1350, 1, 90, 12⟩ ^ ((1 : ℝ) / 3.4) := by
    unfold craterDiameter baseCraterDiameter
    rw [hsc]
    ring
  have hsq : (energy ⟨1350, 1, 90, 12⟩ ^ ((1 : ℝ) / 3.4)) ^ (2 : ℕ) =
      energy ⟨1350, 1, 90, 12⟩ ^ ((10 : ℝ) / 17) := by
    rw [← Real.rpow_natCast (energy ⟨1350, 1, 90, 12⟩ ^ ((1 : ℝ) / 3.4)) 2,
      ← Real.rpow_mul hE_pos.le]
    norm_num
  have harea : craterArea ⟨1350, 1, 90, 12⟩ =
      π * (energy ⟨1350, 1, 90, 12⟩ ^ ((10 : ℝ) / 17)) * 1e-10 := by
    unfold craterArea
    rw [hcd]
    rw [show (0.02 * energy ⟨1350, 1, 90, 12⟩ ^ ((1 : ℝ) / 3.4) / 2000) ^ 2 =
      (energy ⟨1350, 1, 90, 12⟩ ^ ((1 : ℝ) / 3.4)) ^ (2 : ℕ) * 1e-10 by ring]
    rw [hsq]
    ring
  have harea_lo : (0.69 : ℝ) ≤ craterArea ⟨1350, 1, 90, 12⟩ := by
    rw [harea]
    nlinarith [Real.pi_gt_d6, hX_lo, Real.pi_pos]
  have harea_hi : craterArea ⟨1350, 1, 90, 12⟩ ≤ (0.704 : ℝ) := by
    rw [harea]
    nlinarith [Real.pi_lt_d6, hX_hi, hX_lo, Real.pi_pos]
  have hround : craterVaporized ⟨1350, 1, 90, 12⟩ 1 = 1 := by
    unfold craterVaporized
    rw [round_eq]
    rw [Int.floor_eq_iff]
    constructor
    · push_cast
      linarith
    · push_cast
      linarith
  rw [not_le, hround]
  push_cast
  linarith

/-- C2 counterexample: the spec's example mass of 2.29e8 kg is off by a
factor of 1000; the computed mass exceeds it even with 100 percent relative
tolerance. -/
theorem c2_example_scenario_counterexample :
    ¬ (|mass exampleSettings - 2.29e8| ≤ 2.29e8) := by
  have hm_lo : (2.28e11 : ℝ) ≤ mass exampleSettings := by
    unfold mass volume
    simp only [exampleSettings]
    nlinarith [Real.pi_gt_d6]
  rw [not_le, abs_of_nonneg (by linarith)]
  linarith

/-- C2 amended: at diameter 500 m, speed 17 km/s, angle 45 degrees, density
3500 kg/m^3 the engine yields mass about 2.29e11 kg, energy about 3.31e19 J,
megatons about 7.9e3, a crater diameter strictly below the vertical baseline
for the same energy, and no airburst. -/
theorem c2_example_scenario :
    (2.28e11 < mass exampleSettings ∧ mass exampleSettings < 2.30e11) ∧
    (3.30e19 < energy exampleSettings ∧ energy exampleSettings < 3.32e19) ∧
    (7890 < megatons exampleSettings ∧ megatons exampleSettings < 7930) ∧
    craterDiameter exampleSettings < baseCraterDiameter exampleSettings ∧
    ¬ willAirburst exampleSettings := by
  have hmass_eq : mass exampleSettings = (218750000000 / 3) * π := by
    unfold mass volume
    simp only [exampleSettings]
    ring
  have henergy_eq : energy exampleSettings = (218750000000 / 3) * π * 144500000 := by
    unfold energy velocity
    rw [hmass_eq]
    simp only [exampleSettings]
    ring
  refine ⟨⟨?_, ?_⟩, ⟨?_, ?_⟩, ⟨?_, ?_⟩, ?_, ?_⟩
  · rw [hmass_eq]
    nlinarith [Real.pi_gt_d6]
  · rw [hmass_eq]
    nlinarith [Real.pi_lt_d6]
  · rw [henergy_eq]
    nlinarith [Real.pi_gt_d6]
  · rw [henergy_eq]
    nlinarith [Real.pi_lt_d6]
  · unfold megatons
    rw [henergy_eq]
    nlinarith [Real.pi_gt_d6]
  · unfold megatons
    rw [henergy_eq]
    nlinarith [Real.pi_lt_d6]
  · have hE := energy_exampleSettings_pos
    have hbase := baseCraterDiameter_pos exampleSettings hE
    have hrad : impactAngleRad exampleSettings = π / 4 := by
      unfold impactAngleRad
      show (45 : ℝ) * π / 180 = π / 4
      ring
    have hsin_nonneg : 0 ≤ Real.sin (π / 4) := by
      rw [Real.sin_pi_div_four]
      positivity
    have hsin_lt : Real.sin (π / 4) < 1 := by
      rw [Real.sin_pi_div_four]
      nlinarith [Real.sq_sqrt (by norm_num : (0 : ℝ) ≤ 2), Real.sqrt_nonneg 2]
    have hsc_lt : angleScaling exampleSettings < 1 := by
      unfold angleScaling
      rw [hrad]
      exact Real.rpow_lt_one hsin_nonneg hsin_lt (by norm_num)
    unfold craterDiameter
    nlinarith
  · rintro ⟨hdiam, -, -⟩
    norm_num [exampleSettings] at hdiam

end SpaceInnov
